import Mathlib

/-!
Verification of the server-side transport core (`server/transport.rs`,
`server/server.rs`): a shallow embedding of `ServerRaftStoreRouter`,
`ServerTransport`, `SnapshotReporter` and `Server::stop`.

Stateful Rust code is embedded as explicit state passing: the shared
`RaftClient.addrs` cache and the `resolving` set form a `TransportState`,
and every operation returns the new state together with a list of observable
`Effect`s (calls made to the RaftClient, to the snapshot worker's scheduler,
to the resolver, and to the raft router).  Outcomes of the environment
(whether a network send succeeds, whether a worker queue accepts a task,
whether the resolver invocation returns synchronously with an error) are
explicit boolean/optional parameters.  Only error-level logging is modelled
as an effect; debug/info logging and metrics counters are omitted.
-/

namespace Tikv

/-- Message types of `raft::eraftpb::MessageType`; only the distinction
`MsgSnapshot` vs. anything else matters to the transport. -/
inductive MessageType
  | MsgSnapshot
  | MsgAppend
  | MsgHeartbeat
deriving DecidableEq, Repr

/-- `kvproto::metapb::Peer`, restricted to the fields the transport reads. -/
structure Peer where
  id : Nat
  store_id : Nat
deriving DecidableEq, Repr

/-- `kvproto::raft_serverpb::RaftMessage`, restricted to the fields the
transport reads: `get_region_id()`, `get_to_peer()`,
`get_message().get_msg_type()` and `get_message().has_snapshot()`. -/
structure RaftMessage where
  region_id : Nat
  to_peer : Peer
  msg_type : MessageType
  has_snapshot : Bool
deriving DecidableEq, Repr

/-- `raft::SnapshotStatus`. -/
inductive SnapshotStatus
  | Finish
  | Failure
deriving DecidableEq, Repr

/-- `raftstore::store::SignificantMsg`. -/
inductive SignificantMsg
  | unreachable (to_peer_id : Nat)
  | snapshotStatus (to_peer_id : Nat) (status : SnapshotStatus)
deriving DecidableEq, Repr

/-- `raftstore::store::PeerMsg`, restricted to the variant the claims use. -/
inductive PeerMsg
  | significantMsg (m : SignificantMsg)
deriving DecidableEq, Repr

/-- `raftstore::Reason` (payload of `Error::Transport`). -/
inductive Reason
  | Full
deriving DecidableEq, Repr

/-- `raftstore::Error`, restricted to the variants produced by the router
adapter: `Transport(Reason)`, `RegionNotFound(region_id)` and the generic
boxed error produced by `box_err!` (variant `Other`, carrying its message). -/
inductive RaftStoreError
  | transport (r : Reason)
  | regionNotFound (region_id : Nat)
  | other (s : String)
deriving DecidableEq, Repr

/-- `kvproto::raft_cmdpb::RaftCmdRequest`, restricted to the fields the
router adapter reads: the header's region id and the static read-only
classification of its sub-requests (see `ReadTask.acceptable`). -/
structure RaftCmdRequest where
  region_id : Nat
  reads_only : Bool
deriving DecidableEq, Repr

/-- Modelled from the spec: `ReadTask::acceptable(req)` of the raftstore
crate (not part of this source tree) is "true iff every sub-request in the
command is read-only and the header declares no write intent", a static
property of the request, abstracted here as the `reads_only` field. -/
def ReadTask.acceptable (req : RaftCmdRequest) : Bool :=
  req.reads_only

/-- `raftstore::store::ReadTask`: work items of the LocalReader scheduler
(callbacks elided). -/
inductive ReadTask
  | read (req : RaftCmdRequest)
  | batch_read (batch : List RaftCmdRequest)
deriving DecidableEq, Repr

/-- Modelled from the spec: errors of the worker `Scheduler::schedule`
(util crate, not part of this source tree): the worker queue is a bounded
queue that can be full or stopped. -/
inductive ScheduleError
  | stopped
  | full
deriving DecidableEq, Repr

/-- The message `box_err!` stringifies a `ScheduleError` into. -/
def ScheduleError.describe : ScheduleError → String
  | ScheduleError.stopped => "channel has been closed"
  | ScheduleError.full => "channel is full"

/-- Outcome of a bounded `try_send` on a region mailbox
(`std::sync::mpsc::TrySendError`): delivered, mailbox full, or
mailbox disconnected. -/
inductive TrySendOutcome
  | ok
  | full
  | disconnected
deriving DecidableEq, Repr

/-- Modelled from the spec: outcome of `Router::force_send_peer_message`
(raftstore crate, not part of this source tree).  The force-send path is
unbounded, so its error type (`std::sync::mpsc::SendError`) has no "full"
case: the only failure is a disconnected (torn down) mailbox. -/
inductive ForceSendOutcome
  | ok
  | disconnected
deriving DecidableEq, Repr

/-- Observable calls made by the router adapter. -/
inductive RouterEffect
  | scheduleRead (t : ReadTask)
  | sendCmd (req : RaftCmdRequest)
  | forceSend (region : Nat) (msg : PeerMsg)
deriving DecidableEq, Repr

/-- `ServerRaftStoreRouter::send_command`: read-acceptable requests are
scheduled on the LocalReader (schedule errors squashed by `box_err!`),
the rest go to the region mailbox via `Router::send_cmd` with
`Full ↦ Transport(Full)` and `Disconnected ↦ RegionNotFound`. -/
def ServerRaftStoreRouter.send_command (req : RaftCmdRequest)
    (readSched : Option ScheduleError) (cmdSend : TrySendOutcome) :
    Except RaftStoreError Unit × List RouterEffect :=
  if ReadTask.acceptable req then
    match readSched with
    | none => (Except.ok (), [RouterEffect.scheduleRead (ReadTask.read req)])
    | some e => (Except.error (RaftStoreError.other e.describe),
                 [RouterEffect.scheduleRead (ReadTask.read req)])
  else
    match cmdSend with
    | TrySendOutcome.ok => (Except.ok (), [RouterEffect.sendCmd req])
    | TrySendOutcome.full => (Except.error (RaftStoreError.transport Reason.Full),
                              [RouterEffect.sendCmd req])
    | TrySendOutcome.disconnected =>
        (Except.error (RaftStoreError.regionNotFound req.region_id),
         [RouterEffect.sendCmd req])

/-- `ServerRaftStoreRouter::send_batch_commands`: the whole batch is
scheduled on the LocalReader unconditionally; schedule errors are squashed
by `box_err!`. -/
def ServerRaftStoreRouter.send_batch_commands (batch : List RaftCmdRequest)
    (readSched : Option ScheduleError) :
    Except RaftStoreError Unit × List RouterEffect :=
  match readSched with
  | none => (Except.ok (), [RouterEffect.scheduleRead (ReadTask.batch_read batch)])
  | some e => (Except.error (RaftStoreError.other e.describe),
               [RouterEffect.scheduleRead (ReadTask.batch_read batch)])

/-- `ServerRaftStoreRouter::significant_send`: the message is force-sent
on the unbounded mailbox path; the only error is `RegionNotFound`. -/
def ServerRaftStoreRouter.significant_send (region_id : Nat)
    (msg : SignificantMsg) (o : ForceSendOutcome) :
    Except RaftStoreError Unit × List RouterEffect :=
  match o with
  | ForceSendOutcome.ok =>
      (Except.ok (), [RouterEffect.forceSend region_id (PeerMsg.significantMsg msg)])
  | ForceSendOutcome.disconnected =>
      (Except.error (RaftStoreError.regionNotFound region_id),
       [RouterEffect.forceSend region_id (PeerMsg.significantMsg msg)])

/-- Default trait method `RaftStoreRouter::report_unreachable`. -/
def RaftStoreRouter.report_unreachable (region_id to_peer_id : Nat)
    (o : ForceSendOutcome) : Except RaftStoreError Unit × List RouterEffect :=
  ServerRaftStoreRouter.significant_send region_id
    (SignificantMsg.unreachable to_peer_id) o

/-- Default trait method `RaftStoreRouter::report_snapshot_status`. -/
def RaftStoreRouter.report_snapshot_status (region_id to_peer_id : Nat)
    (status : SnapshotStatus) (o : ForceSendOutcome) :
    Except RaftStoreError Unit × List RouterEffect :=
  ServerRaftStoreRouter.significant_send region_id
    (SignificantMsg.snapshotStatus to_peer_id status) o

/-- `RaftClient.addrs` : the address cache `store_id → address`. -/
abbrev AddrMap := Nat → Option String

def AddrMap.insert (m : AddrMap) (s : Nat) (a : String) : AddrMap :=
  fun x => if x = s then some a else m x

def AddrMap.remove (m : AddrMap) (s : Nat) : AddrMap :=
  fun x => if x = s then none else m x

/-- The `resolving : HashSet<u64>` set. -/
abbrev StoreSet := Nat → Bool

def StoreSet.insert (s : StoreSet) (x : Nat) : StoreSet :=
  fun y => if y = x then true else s y

def StoreSet.remove (s : StoreSet) (x : Nat) : StoreSet :=
  fun y => if y = x then false else s y

/-- The shared mutable state of a `ServerTransport`: the RaftClient's
address cache and the resolving set. -/
structure TransportState where
  addrs : AddrMap
  resolving : StoreSet

/-- `SnapshotReporter` (the raft router handle it also holds is implicit:
its `report` is an effect routed through that handle). -/
structure SnapshotReporter where
  region_id : Nat
  to_peer_id : Nat
  to_store_id : Nat
deriving DecidableEq, Repr

/-- Observable calls made by the transport. `scheduleSnap addr msg rep`
records that `SnapTask::Send { addr, msg, cb }` was handed to the snapshot
worker's scheduler where `cb` behaves as `snap_send_cb rep`. -/
inductive Effect
  | clientSend (store : Nat) (addr : String) (msg : RaftMessage)
  | clientFlush
  | scheduleSnap (addr : String) (msg : RaftMessage) (rep : SnapshotReporter)
  | reportSnapshotStatus (region : Nat) (peer : Nat) (status : SnapshotStatus)
  | reportUnreachable (region : Nat) (peer : Nat)
  | resolveStore (store : Nat)
  | log (s : String)
deriving DecidableEq, Repr

/-- `ServerTransport::new_snapshot_reporter`. -/
def new_snapshot_reporter (msg : RaftMessage) : SnapshotReporter :=
  { region_id := msg.region_id
    to_peer_id := msg.to_peer.id
    to_store_id := msg.to_peer.store_id }

/-- `SnapshotReporter::report`: always calls
`raft_router.report_snapshot_status(region_id, to_peer_id, status)`
(router errors are only logged; the metrics counter is omitted). -/
def SnapshotReporter.report (r : SnapshotReporter) (status : SnapshotStatus) :
    List Effect :=
  [Effect.reportSnapshotStatus r.region_id r.to_peer_id status]

/-- `ServerTransport::report_unreachable`: for `MsgSnapshot` messages also
report `SnapshotStatus::Failure` through a fresh reporter, then always call
`raft_router.report_unreachable(region_id, to_peer_id)`. -/
def ServerTransport.report_unreachable (msg : RaftMessage) : List Effect :=
  (if msg.msg_type = MessageType.MsgSnapshot then
    SnapshotReporter.report (new_snapshot_reporter msg) SnapshotStatus.Failure
  else []) ++ [Effect.reportUnreachable msg.region_id msg.to_peer.id]

/-- The callback closed over a reporter in `send_snapshot_sock`:
`Err ↦ report Failure`, `Ok ↦ report Finish`. -/
def snap_send_cb (rep : SnapshotReporter) (res : Except String Unit) :
    List Effect :=
  match res with
  | Except.error _ => rep.report SnapshotStatus.Failure
  | Except.ok _ => rep.report SnapshotStatus.Finish

/-- `ServerTransport::send_snapshot_sock`: build a reporter from the
message, schedule `SnapTask::Send` with `snap_send_cb rep` as callback;
if the scheduler rejects the task (worker stopped), the returned task's
callback is invoked inline with an error. `schedOk` is whether the
snapshot worker's queue accepted the task. -/
def ServerTransport.send_snapshot_sock (st : TransportState) (addr : String)
    (msg : RaftMessage) (schedOk : Bool) : TransportState × List Effect :=
  let rep := new_snapshot_reporter msg
  if schedOk then
    (st, [Effect.scheduleSnap addr msg rep])
  else
    (st, Effect.scheduleSnap addr msg rep ::
         Effect.log "channel is unavaliable, failed to schedule snapshot" ::
         snap_send_cb rep (Except.error "failed to schedule snapshot"))

/-- Modelled from the spec: `RaftClient::send` (raft_client.rs, not part of
this source tree) buffers the message on the store's connection; on a
transport failure it returns `Err` and the store's address cache entry is
evicted ("AddressCache entries ... removed on transport failure";
"connection will be re-resolved on next send after cache eviction").
`ok` is whether the underlying network operation succeeds. -/
def RaftClient.send (addrs : AddrMap) (store_id : Nat) (ok : Bool) :
    AddrMap × Except String Unit :=
  if ok then (addrs, Except.ok ())
  else (AddrMap.remove addrs store_id, Except.error "transport failure")

/-- `ServerTransport::write_data`: snapshot-carrying messages are diverted
to `send_snapshot_sock`; everything else goes to `RaftClient.send`, whose
error is only logged. -/
def ServerTransport.write_data (st : TransportState) (store_id : Nat)
    (addr : String) (msg : RaftMessage) (sendOk schedOk : Bool) :
    TransportState × List Effect :=
  if msg.has_snapshot then
    ServerTransport.send_snapshot_sock st addr msg schedOk
  else
    match RaftClient.send st.addrs store_id sendOk with
    | (addrs2, Except.ok _) =>
        ({ st with addrs := addrs2 }, [Effect.clientSend store_id addr msg])
    | (addrs2, Except.error _) =>
        ({ st with addrs := addrs2 },
         [Effect.clientSend store_id addr msg, Effect.log "send raft msg err"])

/-- The resolution callback built in `ServerTransport::resolve`.  `fp` is
the payload of the `transport_snapshot_on_resolve` fail point (testing
only, `none` when off): when the message is a snapshot and the payload
matches the store, the received address is swapped for an error.  The
callback then always clears `resolving`; on error it reports unreachable,
on success it inserts the address into the cache, calls `write_data` and
flushes the client. -/
def ServerTransport.resolve_cb (st : TransportState) (store_id : Nat)
    (msg : RaftMessage) (fp : Option Nat) (addr0 : Except String String)
    (sendOk schedOk : Bool) : TransportState × List Effect :=
  let addr : Except String String :=
    match fp with
    | some sid =>
        if msg.msg_type = MessageType.MsgSnapshot then
          if sid = store_id then Except.error "injected failure" else addr0
        else addr0
    | none => addr0
  let st1 : TransportState := { st with resolving := StoreSet.remove st.resolving store_id }
  match addr with
  | Except.error _ =>
      (st1, Effect.log "resolve store address failed" ::
            ServerTransport.report_unreachable msg)
  | Except.ok a =>
      let st2 : TransportState := { st1 with addrs := AddrMap.insert st1.addrs store_id a }
      let p := ServerTransport.write_data st2 store_id a msg sendOk schedOk
      (p.1, p.2 ++ [Effect.clientFlush])

/-- The synchronous part of `ServerTransport::resolve`: invoke
`resolver.resolve(store_id, cb)`; if that invocation itself returns an
error, remove the store from `resolving` and report unreachable.
`resolverOk` is whether the resolver accepted the request (the
asynchronous callback itself is `resolve_cb`). -/
def ServerTransport.resolve (st : TransportState) (store_id : Nat)
    (msg : RaftMessage) (resolverOk : Bool) : TransportState × List Effect :=
  if resolverOk then
    (st, [Effect.resolveStore store_id])
  else
    ({ st with resolving := StoreSet.remove st.resolving store_id },
     Effect.resolveStore store_id ::
     Effect.log "resolve store address failed" ::
     ServerTransport.report_unreachable msg)

/-- `ServerTransport::send_store`.  `fp` is the payload of the
`transport_on_send_store` fail point (testing only, `none` when off): a
matching payload evicts the store's cache entry before the lookup.  Then:
cache hit → `write_data`; store already resolving → drop the message and
`report_unreachable`; otherwise insert into `resolving` and `resolve`. -/
def ServerTransport.send_store (st : TransportState) (store_id : Nat)
    (msg : RaftMessage) (fp : Option Nat) (resolverOk sendOk schedOk : Bool) :
    TransportState × List Effect :=
  let st0 : TransportState :=
    match fp with
    | some sid =>
        if sid = store_id then { st with addrs := AddrMap.remove st.addrs store_id }
        else st
    | none => st
  match st0.addrs store_id with
  | some addr => ServerTransport.write_data st0 store_id addr msg sendOk schedOk
  | none =>
      if st0.resolving store_id then
        (st0, ServerTransport.report_unreachable msg)
      else
        ServerTransport.resolve
          { st0 with resolving := StoreSet.insert st0.resolving store_id }
          store_id msg resolverOk

/-- `<ServerTransport as Transport>::send`: dispatch on
`msg.to_peer.store_id` via `send_store` and return `Ok(())`. -/
def ServerTransport.send (st : TransportState) (msg : RaftMessage)
    (fp : Option Nat) (resolverOk sendOk schedOk : Bool) :
    (TransportState × List Effect) × Except RaftStoreError Unit :=
  (ServerTransport.send_store st msg.to_peer.store_id msg fp resolverOk sendOk schedOk,
   Except.ok ())

/-- Modelled from the spec: `util::worker::Worker` (not part of this source
tree); `stop` terminates it, after which it is not running. -/
structure Worker where
  running : Bool
deriving DecidableEq, Repr

def Worker.stop (_ : Worker) : Worker :=
  { running := false }

/-- Modelled from the spec: `Storage::stop` stops the storage component and
may fail; `ok` is whether it succeeds.  After the call the component is no
longer running. -/
structure Storage where
  running : Bool
deriving DecidableEq, Repr

def Storage.stop (_ : Storage) (ok : Bool) : Storage × Except String Unit :=
  ({ running := false }, if ok then Except.ok () else Except.error "storage stop failed")

/-- Modelled from the spec: the gRPC server handle; `shutdown` closes it. -/
structure GrpcServer where
  running : Bool
deriving DecidableEq, Repr

def GrpcServer.shutdown (_ : GrpcServer) : GrpcServer :=
  { running := false }

/-- The components of `Server` whose lifecycle `stop` drives. -/
structure ServerState where
  end_point_worker : Worker
  snap_worker : Worker
  storage : Storage
  grpc_server : GrpcServer
deriving DecidableEq, Repr

/-- The steps `Server::stop` performs, in order. -/
inductive ServerStep
  | stopEndPointWorker
  | stopSnapWorker
  | stopStorage
  | logStorageStopError
  | shutdownGrpc
deriving DecidableEq, Repr

/-- `Server::stop`: stop the coprocessor (end-point) worker, the snapshot
worker, the storage (logging a storage error and continuing), shut down the
gRPC server, and return `Ok(())`.  `storageStopOk` is whether
`storage.stop()` succeeds. -/
def Server.stop (s : ServerState) (storageStopOk : Bool) :
    (ServerState × List ServerStep) × Except String Unit :=
  let ep := s.end_point_worker.stop
  let sw := s.snap_worker.stop
  let pr := s.storage.stop storageStopOk
  let logSteps : List ServerStep :=
    match pr.2 with
    | Except.ok _ => []
    | Except.error _ => [ServerStep.logStorageStopError]
  let g := s.grpc_server.shutdown
  (({ end_point_worker := ep, snap_worker := sw, storage := pr.1, grpc_server := g },
    ServerStep.stopEndPointWorker :: ServerStep.stopSnapWorker ::
    ServerStep.stopStorage :: (logSteps ++ [ServerStep.shutdownGrpc])),
   Except.ok ())

/-- A concrete cache state mapping store 7 to an address, used by the
concrete instantiations below. -/
def st0 : TransportState :=
  { addrs := fun s => if s = 7 then some "addr7" else none
    resolving := fun _ => false }

/-- A concrete empty transport state. -/
def stEmpty : TransportState :=
  { addrs := fun _ => none, resolving := fun _ => false }

/-- A concrete non-snapshot message to peer 2 on store 7 in region 1. -/
def msg0 : RaftMessage :=
  { region_id := 1
    to_peer := { id := 2, store_id := 7 }
    msg_type := MessageType.MsgAppend
    has_snapshot := false }

/-- A concrete snapshot message to peer 4 on store 9 in region 3. -/
def snapMsg0 : RaftMessage :=
  { region_id := 3
    to_peer := { id := 4, store_id := 9 }
    msg_type := MessageType.MsgSnapshot
    has_snapshot := true }

section Lemmas

/-- `report_unreachable` only talks to the raft router: it never hands a
message to the RaftClient. -/
theorem report_unreachable_no_clientSend (msg : RaftMessage) (s : Nat)
    (a : String) (m : RaftMessage) :
    Effect.clientSend s a m ∉ ServerTransport.report_unreachable msg := by
  by_cases h : msg.msg_type = MessageType.MsgSnapshot <;>
    simp [ServerTransport.report_unreachable, SnapshotReporter.report, h]

/-- `report_unreachable` never schedules a snapshot task. -/
theorem report_unreachable_no_scheduleSnap (msg : RaftMessage) (a : String)
    (m : RaftMessage) (rep : SnapshotReporter) :
    Effect.scheduleSnap a m rep ∉ ServerTransport.report_unreachable msg := by
  by_cases h : msg.msg_type = MessageType.MsgSnapshot <;>
    simp [ServerTransport.report_unreachable, SnapshotReporter.report, h]

/-- `write_data` never touches the resolving set. -/
theorem write_data_resolving (st : TransportState) (sid : Nat) (a : String)
    (msg : RaftMessage) (sendOk schedOk : Bool) :
    (ServerTransport.write_data st sid a msg sendOk schedOk).1.resolving
      = st.resolving := by
  cases hs : msg.has_snapshot <;> cases sendOk <;> cases schedOk <;>
    simp [ServerTransport.write_data, ServerTransport.send_snapshot_sock,
      RaftClient.send, hs]

/-- `write_data` never creates an address cache entry: a store that was
unmapped before stays unmapped. -/
theorem write_data_addrs_none (st : TransportState) (sid : Nat) (a : String)
    (msg : RaftMessage) (sendOk schedOk : Bool) (s : Nat)
    (h : st.addrs s = none) :
    (ServerTransport.write_data st sid a msg sendOk schedOk).1.addrs s = none := by
  cases hs : msg.has_snapshot <;> cases sendOk <;> cases schedOk <;>
    simp [ServerTransport.write_data, ServerTransport.send_snapshot_sock,
      RaftClient.send, AddrMap.remove, hs, h]

end Lemmas

/-- C1: with the fail points off, `send(msg)` always returns `Ok(())` and
dispatches on `msg.to_peer.store_id`: on a cache hit `write_data` is called
with the cached address; else if the store is already in `resolving` the
message is dropped (state unchanged) and `report_unreachable(msg)` is
called; else the store is inserted into `resolving` and the resolver is
invoked for it. -/
theorem send_dispatch (st : TransportState) (msg : RaftMessage)
    (resolverOk sendOk schedOk : Bool) :
    (ServerTransport.send st msg none resolverOk sendOk schedOk).2 = Except.ok () ∧
    (∀ addr, st.addrs msg.to_peer.store_id = some addr →
      (ServerTransport.send st msg none resolverOk sendOk schedOk).1 =
        ServerTransport.write_data st msg.to_peer.store_id addr msg sendOk schedOk) ∧
    (st.addrs msg.to_peer.store_id = none →
      st.resolving msg.to_peer.store_id = true →
      (ServerTransport.send st msg none resolverOk sendOk schedOk).1 =
        (st, ServerTransport.report_unreachable msg)) ∧
    (st.addrs msg.to_peer.store_id = none →
      st.resolving msg.to_peer.store_id = false →
      (ServerTransport.send st msg none resolverOk sendOk schedOk).1 =
        ServerTransport.resolve
          { st with resolving := StoreSet.insert st.resolving msg.to_peer.store_id }
          msg.to_peer.store_id msg resolverOk ∧
      Effect.resolveStore msg.to_peer.store_id ∈
        (ServerTransport.send st msg none resolverOk sendOk schedOk).1.2) := by
  refine ⟨rfl, ?_, ?_, ?_⟩
  · intro addr h
    simp [ServerTransport.send, ServerTransport.send_store, h]
  · intro h1 h2
    simp [ServerTransport.send, ServerTransport.send_store, h1, h2]
  · intro h1 h2
    refine ⟨by simp [ServerTransport.send, ServerTransport.send_store, h1, h2], ?_⟩
    cases resolverOk <;>
      simp [ServerTransport.send, ServerTransport.send_store,
        ServerTransport.resolve, h1, h2]

/-- C1 instantiated: cache hit on store 7 dispatches `msg0` to `write_data`
with the cached address, and `send` returns `Ok`. -/
theorem send_dispatch_witness :
    (ServerTransport.send st0 msg0 none true true true).2 = Except.ok () ∧
    (ServerTransport.send st0 msg0 none true true true).1 =
      ServerTransport.write_data st0 7 "addr7" msg0 true true :=
  ⟨(send_dispatch st0 msg0 true true true).1,
   (send_dispatch st0 msg0 true true true).2.1 "addr7" rfl⟩

/-- C2: the resolution callback (fail points off) always clears the store
from `resolving`; on `Err` it logs, reports unreachable and delivers
nothing (no RaftClient send, no snapshot task); on `Ok(addr)` it inserts
the address into the cache, runs `write_data` on the updated state and
then flushes the client; and when the resolver invocation itself fails
synchronously, `resolve` clears `resolving` and reports unreachable. -/
theorem resolve_callback_spec (st : TransportState) (sid : Nat)
    (msg : RaftMessage) (addr0 : Except String String) (sendOk schedOk : Bool) :
    ((ServerTransport.resolve_cb st sid msg none addr0 sendOk schedOk).1.resolving sid
      = false) ∧
    (∀ e, addr0 = Except.error e →
      ServerTransport.resolve_cb st sid msg none addr0 sendOk schedOk =
        ({ st with resolving := StoreSet.remove st.resolving sid },
         Effect.log "resolve store address failed" ::
           ServerTransport.report_unreachable msg) ∧
      (∀ s a m, Effect.clientSend s a m ∉
        (ServerTransport.resolve_cb st sid msg none addr0 sendOk schedOk).2) ∧
      (∀ a m rep, Effect.scheduleSnap a m rep ∉
        (ServerTransport.resolve_cb st sid msg none addr0 sendOk schedOk).2)) ∧
    (∀ a, addr0 = Except.ok a →
      ServerTransport.resolve_cb st sid msg none addr0 sendOk schedOk =
        ((ServerTransport.write_data
            { addrs := AddrMap.insert st.addrs sid a
              resolving := StoreSet.remove st.resolving sid } sid a msg sendOk schedOk).1,
         (ServerTransport.write_data
            { addrs := AddrMap.insert st.addrs sid a
              resolving := StoreSet.remove st.resolving sid } sid a msg sendOk schedOk).2
           ++ [Effect.clientFlush])) ∧
    (ServerTransport.resolve st sid msg false =
      ({ st with resolving := StoreSet.remove st.resolving sid },
       Effect.resolveStore sid ::
       Effect.log "resolve store address failed" ::
       ServerTransport.report_unreachable msg)) := by
  refine ⟨?_, ?_, ?_, ?_⟩
  · cases addr0 with
    | error e => simp [ServerTransport.resolve_cb, StoreSet.remove]
    | ok a =>
        simp [ServerTransport.resolve_cb, write_data_resolving, StoreSet.remove]
  · intro e he
    subst he
    refine ⟨by simp [ServerTransport.resolve_cb], ?_, ?_⟩
    · intro s a m
      simp [ServerTransport.resolve_cb]
      exact report_unreachable_no_clientSend msg s a m
    · intro a m rep
      simp [ServerTransport.resolve_cb]
      exact report_unreachable_no_scheduleSnap msg a m rep
  · intro a ha
    subst ha
    simp [ServerTransport.resolve_cb]
  · simp [ServerTransport.resolve]

/-- C2 instantiated: a successful resolution of store 5 for `msg0` clears
`resolving`, inserts the address and runs `write_data` followed by a
flush. -/
theorem resolve_callback_witness :
    ((ServerTransport.resolve_cb stEmpty 5 msg0 none (Except.ok "h:p") true true).1.resolving 5
      = false) ∧
    ServerTransport.resolve_cb stEmpty 5 msg0 none (Except.ok "h:p") true true =
      ((ServerTransport.write_data
          { addrs := AddrMap.insert stEmpty.addrs 5 "h:p"
            resolving := StoreSet.remove stEmpty.resolving 5 } 5 "h:p" msg0 true true).1,
       (ServerTransport.write_data
          { addrs := AddrMap.insert stEmpty.addrs 5 "h:p"
            resolving := StoreSet.remove stEmpty.resolving 5 } 5 "h:p" msg0 true true).2
         ++ [Effect.clientFlush]) :=
  ⟨(resolve_callback_spec stEmpty 5 msg0 (Except.ok "h:p") true true).1,
   (resolve_callback_spec stEmpty 5 msg0 (Except.ok "h:p") true true).2.2.1 "h:p" rfl⟩

/-- C3: `report_unreachable(msg)` always sends `Unreachable{to_peer_id}`
to `msg.region_id` through the router, and for a `MsgSnapshot` message it
additionally reports `SnapshotStatus::Failure` for
`(msg.region_id, msg.to_peer.id)` via a reporter. -/
theorem report_unreachable_spec (msg : RaftMessage) :
    Effect.reportUnreachable msg.region_id msg.to_peer.id ∈
      ServerTransport.report_unreachable msg ∧
    (msg.msg_type = MessageType.MsgSnapshot →
      Effect.reportSnapshotStatus msg.region_id msg.to_peer.id SnapshotStatus.Failure ∈
        ServerTransport.report_unreachable msg) ∧
    (msg.msg_type = MessageType.MsgSnapshot →
      ServerTransport.report_unreachable msg =
        [Effect.reportSnapshotStatus msg.region_id msg.to_peer.id SnapshotStatus.Failure,
         Effect.reportUnreachable msg.region_id msg.to_peer.id]) := by
  refine ⟨?_, ?_, ?_⟩
  · by_cases h : msg.msg_type = MessageType.MsgSnapshot <;>
      simp [ServerTransport.report_unreachable, SnapshotReporter.report,
        new_snapshot_reporter, h]
  · intro h
    simp [ServerTransport.report_unreachable, SnapshotReporter.report,
      new_snapshot_reporter, h]
  · intro h
    simp [ServerTransport.report_unreachable, SnapshotReporter.report,
      new_snapshot_reporter, h]

/-- C3 instantiated: abandoning the snapshot message `snapMsg0` fires both
the snapshot failure report and the unreachable report, in that order. -/
theorem report_unreachable_witness :
    ServerTransport.report_unreachable snapMsg0 =
      [Effect.reportSnapshotStatus 3 4 SnapshotStatus.Failure,
       Effect.reportUnreachable 3 4] :=
  (report_unreachable_spec snapMsg0).2.2 rfl

/-- C4: `significant_send` always goes through the force-send (unbounded)
mailbox path — the attempted delivery is the force-send of the wrapped
significant message, with no bounded-send involved — and the only possible
error is `RegionNotFound(region_id)`, arising exactly when the mailbox is
disconnected; `report_unreachable` and `report_snapshot_status` are exactly
`significant_send` of the `Unreachable` and `SnapshotStatus` variants. -/
theorem significant_send_spec (region_id : Nat) (m : SignificantMsg)
    (o : ForceSendOutcome) :
    ((ServerRaftStoreRouter.significant_send region_id m o).2 =
      [RouterEffect.forceSend region_id (PeerMsg.significantMsg m)]) ∧
    (o = ForceSendOutcome.ok →
      (ServerRaftStoreRouter.significant_send region_id m o).1 = Except.ok ()) ∧
    (o = ForceSendOutcome.disconnected →
      (ServerRaftStoreRouter.significant_send region_id m o).1 =
        Except.error (RaftStoreError.regionNotFound region_id)) ∧
    (∀ e, (ServerRaftStoreRouter.significant_send region_id m o).1 = Except.error e →
      e = RaftStoreError.regionNotFound region_id) ∧
    (∀ p oo, RaftStoreRouter.report_unreachable region_id p oo =
      ServerRaftStoreRouter.significant_send region_id
        (SignificantMsg.unreachable p) oo) ∧
    (∀ p status oo, RaftStoreRouter.report_snapshot_status region_id p status oo =
      ServerRaftStoreRouter.significant_send region_id
        (SignificantMsg.snapshotStatus p status) oo) := by
  refine ⟨?_, ?_, ?_, ?_, fun p oo => rfl, fun p status oo => rfl⟩
  · cases o <;> simp [ServerRaftStoreRouter.significant_send]
  · intro h; subst h; rfl
  · intro h; subst h; rfl
  · intro e he
    cases o <;> simp [ServerRaftStoreRouter.significant_send] at he
    exact he.symm

/-- C4 instantiated: on a disconnected mailbox of region 11,
`significant_send` of `Unreachable{to_peer_id = 4}` force-sends the signal
and fails with `RegionNotFound(11)`. -/
theorem significant_send_witness :
    ((ServerRaftStoreRouter.significant_send 11 (SignificantMsg.unreachable 4)
        ForceSendOutcome.disconnected).2 =
      [RouterEffect.forceSend 11
        (PeerMsg.significantMsg (SignificantMsg.unreachable 4))]) ∧
    (ServerRaftStoreRouter.significant_send 11 (SignificantMsg.unreachable 4)
        ForceSendOutcome.disconnected).1 =
      Except.error (RaftStoreError.regionNotFound 11) :=
  ⟨(significant_send_spec 11 (SignificantMsg.unreachable 4)
      ForceSendOutcome.disconnected).1,
   (significant_send_spec 11 (SignificantMsg.unreachable 4)
      ForceSendOutcome.disconnected).2.2.1 rfl⟩

/-- C5 counterexample: a read-acceptable request whose LocalReader
scheduling fails because the queue is full yields the generic boxed error,
not `Transport(Full)` — the two branches of `send_command` do not share
the same failure kinds. -/
theorem send_command_full_counterexample :
    (ServerRaftStoreRouter.send_command { region_id := 7, reads_only := true }
        (some ScheduleError.full) TrySendOutcome.ok).1 =
      Except.error (RaftStoreError.other "channel is full") ∧
    (ServerRaftStoreRouter.send_command { region_id := 7, reads_only := true }
        (some ScheduleError.full) TrySendOutcome.ok).1 ≠
      Except.error (RaftStoreError.transport Reason.Full) := by
  refine ⟨rfl, ?_⟩
  intro h
  simp [ServerRaftStoreRouter.send_command, ReadTask.acceptable,
    ScheduleError.describe] at h

/-- C5 amended: `send_command` routes read-acceptable requests to the
LocalReader scheduler and the rest to the region mailbox; the mailbox
branch fails with `Transport(Full)` when full and
`RegionNotFound(region_id)` when disconnected, while the LocalReader
branch maps any scheduling failure to a generic boxed `Other` error rather
than to those kinds. -/
theorem send_command_routing (req : RaftCmdRequest)
    (readSched : Option ScheduleError) (cmdSend : TrySendOutcome) :
    (ReadTask.acceptable req = true →
      (ServerRaftStoreRouter.send_command req readSched cmdSend).2 =
        [RouterEffect.scheduleRead (ReadTask.read req)] ∧
      (readSched = none →
        (ServerRaftStoreRouter.send_command req readSched cmdSend).1 = Except.ok ()) ∧
      (∀ e, readSched = some e →
        (ServerRaftStoreRouter.send_command req readSched cmdSend).1 =
          Except.error (RaftStoreError.other e.describe))) ∧
    (ReadTask.acceptable req = false →
      (ServerRaftStoreRouter.send_command req readSched cmdSend).2 =
        [RouterEffect.sendCmd req] ∧
      (cmdSend = TrySendOutcome.ok →
        (ServerRaftStoreRouter.send_command req readSched cmdSend).1 = Except.ok ()) ∧
      (cmdSend = TrySendOutcome.full →
        (ServerRaftStoreRouter.send_command req readSched cmdSend).1 =
          Except.error (RaftStoreError.transport Reason.Full)) ∧
      (cmdSend = TrySendOutcome.disconnected →
        (ServerRaftStoreRouter.send_command req readSched cmdSend).1 =
          Except.error (RaftStoreError.regionNotFound req.region_id))) := by
  constructor
  · intro h
    refine ⟨?_, ?_, ?_⟩
    · cases readSched <;> simp [ServerRaftStoreRouter.send_command, h]
    · intro hn; subst hn; simp [ServerRaftStoreRouter.send_command, h]
    · intro e he; subst he; simp [ServerRaftStoreRouter.send_command, h]
  · intro h
    refine ⟨?_, ?_, ?_, ?_⟩
    · cases cmdSend <;> simp [ServerRaftStoreRouter.send_command, h]
    · intro hc; subst hc; simp [ServerRaftStoreRouter.send_command, h]
    · intro hc; subst hc; simp [ServerRaftStoreRouter.send_command, h]
    · intro hc; subst hc; simp [ServerRaftStoreRouter.send_command, h]

/-- C5 amended, instantiated: a write command to region 9 whose mailbox is
full fails with `Transport(Full)` after being handed to the mailbox. -/
theorem send_command_routing_witness :
    (ServerRaftStoreRouter.send_command { region_id := 9, reads_only := false }
        none TrySendOutcome.full).2 =
      [RouterEffect.sendCmd { region_id := 9, reads_only := false }] ∧
    (ServerRaftStoreRouter.send_command { region_id := 9, reads_only := false }
        none TrySendOutcome.full).1 =
      Except.error (RaftStoreError.transport Reason.Full) :=
  ⟨((send_command_routing { region_id := 9, reads_only := false }
      none TrySendOutcome.full).2 rfl).1,
   ((send_command_routing { region_id := 9, reads_only := false }
      none TrySendOutcome.full).2 rfl).2.2.1 rfl⟩

/-- C6: `write_data` delegates to `send_snapshot_sock` exactly when the
message carries a snapshot payload; otherwise it calls `RaftClient.send`,
and on a send error it only logs — it never schedules a snapshot task,
never reports unreachable and sends nothing to the router. -/
theorem write_data_spec (st : TransportState) (sid : Nat) (addr : String)
    (msg : RaftMessage) (sendOk schedOk : Bool) :
    (msg.has_snapshot = true →
      ServerTransport.write_data st sid addr msg sendOk schedOk =
        ServerTransport.send_snapshot_sock st addr msg schedOk) ∧
    (msg.has_snapshot = false →
      ((ServerTransport.write_data st sid addr msg true schedOk).2 =
        [Effect.clientSend sid addr msg]) ∧
      ((ServerTransport.write_data st sid addr msg false schedOk).2 =
        [Effect.clientSend sid addr msg, Effect.log "send raft msg err"]) ∧
      (∀ a m rep, Effect.scheduleSnap a m rep ∉
        (ServerTransport.write_data st sid addr msg sendOk schedOk).2) ∧
      (∀ r p, Effect.reportUnreachable r p ∉
        (ServerTransport.write_data st sid addr msg sendOk schedOk).2) ∧
      (∀ r p status, Effect.reportSnapshotStatus r p status ∉
        (ServerTransport.write_data st sid addr msg sendOk schedOk).2)) := by
  constructor
  · intro h
    simp [ServerTransport.write_data, h]
  · intro h
    refine ⟨?_, ?_, ?_, ?_, ?_⟩
    · simp [ServerTransport.write_data, RaftClient.send, h]
    · simp [ServerTransport.write_data, RaftClient.send, h]
    · intro a m rep
      cases sendOk <;> simp [ServerTransport.write_data, RaftClient.send, h]
    · intro r p
      cases sendOk <;> simp [ServerTransport.write_data, RaftClient.send, h]
    · intro r p status
      cases sendOk <;> simp [ServerTransport.write_data, RaftClient.send, h]

/-- C6 instantiated: a failed `RaftClient.send` of the non-snapshot `msg0`
produces exactly the client call and an error log. -/
theorem write_data_witness :
    (ServerTransport.write_data st0 7 "addr7" msg0 false true).2 =
      [Effect.clientSend 7 "addr7" msg0, Effect.log "send raft msg err"] :=
  ((write_data_spec st0 7 "addr7" msg0 false true).2 rfl).2.1

/-- C7: `send_snapshot_sock` builds its reporter from the message's
`(region_id, to_peer_id, to_store_id)` and schedules a `SnapTask::Send`
whose callback reports `Finish` on `Ok` and `Failure` on `Err`; when the
scheduler rejects the task, the callback is invoked inline with an error,
so the reporter still fires `Failure`. -/
theorem send_snapshot_sock_spec (st : TransportState) (addr : String)
    (msg : RaftMessage) :
    (new_snapshot_reporter msg =
      { region_id := msg.region_id
        to_peer_id := msg.to_peer.id
        to_store_id := msg.to_peer.store_id }) ∧
    (ServerTransport.send_snapshot_sock st addr msg true =
      (st, [Effect.scheduleSnap addr msg (new_snapshot_reporter msg)])) ∧
    (∀ r : SnapshotReporter, snap_send_cb r (Except.ok ()) =
      [Effect.reportSnapshotStatus r.region_id r.to_peer_id SnapshotStatus.Finish]) ∧
    (∀ (r : SnapshotReporter) (e : String), snap_send_cb r (Except.error e) =
      [Effect.reportSnapshotStatus r.region_id r.to_peer_id SnapshotStatus.Failure]) ∧
    (ServerTransport.send_snapshot_sock st addr msg false =
      (st, [Effect.scheduleSnap addr msg (new_snapshot_reporter msg),
            Effect.log "channel is unavaliable, failed to schedule snapshot",
            Effect.reportSnapshotStatus msg.region_id msg.to_peer.id
              SnapshotStatus.Failure])) := by
  refine ⟨rfl, rfl, fun r => rfl, fun r e => rfl, ?_⟩
  simp [ServerTransport.send_snapshot_sock, snap_send_cb,
    SnapshotReporter.report, new_snapshot_reporter]

/-- The `transport_on_send_store` fail point only rewrites the state before
the cache lookup: `send_store` with an active payload equals `send_store`
with the fail point off on the (possibly evicted) state. -/
theorem send_store_fp_eq (st : TransportState) (sid sid2 : Nat)
    (msg : RaftMessage) (resolverOk sendOk schedOk : Bool) :
    ServerTransport.send_store st sid msg (some sid2) resolverOk sendOk schedOk =
      ServerTransport.send_store
        (if sid2 = sid then { st with addrs := AddrMap.remove st.addrs sid } else st)
        sid msg none resolverOk sendOk schedOk := rfl

/-- With the fail point off, `send_store` never creates an address cache
entry: a store that was unmapped before stays unmapped. -/
theorem send_store_addrs_none_fpoff (st : TransportState) (sid : Nat)
    (msg : RaftMessage) (resolverOk sendOk schedOk : Bool) (s : Nat)
    (h : st.addrs s = none) :
    (ServerTransport.send_store st sid msg none resolverOk sendOk schedOk).1.addrs s
      = none := by
  cases hd : st.addrs sid with
  | some addr =>
      have := write_data_addrs_none st sid addr msg sendOk schedOk s h
      simpa [ServerTransport.send_store, hd] using this
  | none =>
      cases hr : st.resolving sid <;> cases resolverOk <;>
        simp [ServerTransport.send_store, ServerTransport.resolve, hd, hr, h]

/-- C8: address cache lifecycle.  (a) a successful resolution whose
follow-up client send succeeds leaves the cache mapping the store to the
resolved address — insertion happens on successful resolve; (b) a
transport failure for a non-snapshot message inside `write_data` evicts
the entry, so the cache no longer maps the store to the dead address;
(c) the `transport_on_send_store` fault injection for the store likewise
leaves the store unmapped; (d) `send_store` never creates a cache entry:
only the resolution callback inserts. -/
theorem address_cache_lifecycle (st : TransportState) (sid : Nat)
    (msg : RaftMessage) (a addr : String) (fp : Option Nat)
    (resolverOk sendOk schedOk : Bool) :
    ((ServerTransport.resolve_cb st sid msg none (Except.ok a) true schedOk).1.addrs sid
      = some a) ∧
    (msg.has_snapshot = false →
      (ServerTransport.write_data st sid addr msg false schedOk).1.addrs sid = none) ∧
    ((ServerTransport.send_store st sid msg (some sid) resolverOk sendOk
        schedOk).1.addrs sid = none) ∧
    (∀ s, st.addrs s = none →
      (ServerTransport.send_store st sid msg fp resolverOk sendOk schedOk).1.addrs s
        = none) := by
  refine ⟨?_, ?_, ?_, ?_⟩
  · cases hs : msg.has_snapshot <;> cases schedOk <;>
      simp [ServerTransport.resolve_cb, ServerTransport.write_data,
        ServerTransport.send_snapshot_sock, RaftClient.send, AddrMap.insert, hs]
  · intro hs
    simp [ServerTransport.write_data, RaftClient.send, AddrMap.remove, hs]
  · rw [send_store_fp_eq]
    simp only [if_pos rfl]
    exact send_store_addrs_none_fpoff _ sid msg resolverOk sendOk schedOk sid
      (by simp [AddrMap.remove])
  · intro s h
    cases fp with
    | none => exact send_store_addrs_none_fpoff st sid msg resolverOk sendOk schedOk s h
    | some sid2 =>
        rw [send_store_fp_eq]
        apply send_store_addrs_none_fpoff
        by_cases hc : sid2 = sid <;> simp [hc, AddrMap.remove, h]

/-- C8 instantiated: evicting via the fault injection on store 7 leaves the
previously cached store 7 unmapped, and a failed client send for store 7
likewise clears the entry. -/
theorem address_cache_lifecycle_witness :
    ((ServerTransport.send_store st0 7 msg0 (some 7) true true true).1.addrs 7
      = none) ∧
    ((ServerTransport.write_data st0 7 "addr7" msg0 false true).1.addrs 7 = none) :=
  ⟨(address_cache_lifecycle st0 7 msg0 "x" "addr7" none true true true).2.2.1,
   (address_cache_lifecycle st0 7 msg0 "x" "addr7" none true true true).2.1 rfl⟩

/-- C9: `Server::stop` performs its steps in the stated order — coprocessor
(end-point) worker, snapshot worker, storage, gRPC server — a storage stop
error is logged without aborting the remaining steps, `stop` always
returns `Ok(())`, and afterwards no component is running. -/
theorem server_stop_spec (s : ServerState) (storageStopOk : Bool) :
    ((Server.stop s storageStopOk).2 = Except.ok ()) ∧
    ((Server.stop s true).1.2 =
      [ServerStep.stopEndPointWorker, ServerStep.stopSnapWorker,
       ServerStep.stopStorage, ServerStep.shutdownGrpc]) ∧
    ((Server.stop s false).1.2 =
      [ServerStep.stopEndPointWorker, ServerStep.stopSnapWorker,
       ServerStep.stopStorage, ServerStep.logStorageStopError,
       ServerStep.shutdownGrpc]) ∧
    ((Server.stop s storageStopOk).1.1.end_point_worker.running = false) ∧
    ((Server.stop s storageStopOk).1.1.snap_worker.running = false) ∧
    ((Server.stop s storageStopOk).1.1.storage.running = false) ∧
    ((Server.stop s storageStopOk).1.1.grpc_server.running = false) := by
  cases storageStopOk <;>
    simp [Server.stop, Worker.stop, Storage.stop, GrpcServer.shutdown]

/-- C10: `send_batch_commands` schedules the whole batch to the LocalReader
unconditionally — the batch is never inspected for read-acceptability —
and a scheduling failure yields the generic boxed error, never
`Transport(Full)` and never `RegionNotFound`. -/
theorem send_batch_commands_spec (batch : List RaftCmdRequest)
    (readSched : Option ScheduleError) :
    ((ServerRaftStoreRouter.send_batch_commands batch readSched).2 =
      [RouterEffect.scheduleRead (ReadTask.batch_read batch)]) ∧
    (readSched = none →
      (ServerRaftStoreRouter.send_batch_commands batch readSched).1 = Except.ok ()) ∧
    (∀ e, readSched = some e →
      (ServerRaftStoreRouter.send_batch_commands batch readSched).1 =
        Except.error (RaftStoreError.other e.describe)) ∧
    (∀ r, (ServerRaftStoreRouter.send_batch_commands batch readSched).1 ≠
      Except.error (RaftStoreError.transport r)) ∧
    (∀ n, (ServerRaftStoreRouter.send_batch_commands batch readSched).1 ≠
      Except.error (RaftStoreError.regionNotFound n)) := by
  refine ⟨?_, ?_, ?_, ?_, ?_⟩
  · cases readSched <;> simp [ServerRaftStoreRouter.send_batch_commands]
  · intro h; subst h; rfl
  · intro e he; subst he; rfl
  · intro r
    cases readSched <;> simp [ServerRaftStoreRouter.send_batch_commands]
  · intro n
    cases readSched <;> simp [ServerRaftStoreRouter.send_batch_commands]

/-- C10 instantiated: a batch containing a write command is still handed
to the local-read path, and a stopped scheduler yields the generic boxed
error. -/
theorem send_batch_commands_witness :
    ((ServerRaftStoreRouter.send_batch_commands
        [{ region_id := 1, reads_only := false }, { region_id := 2, reads_only := true }]
        (some ScheduleError.stopped)).2 =
      [RouterEffect.scheduleRead (ReadTask.batch_read
        [{ region_id := 1, reads_only := false },
         { region_id := 2, reads_only := true }])]) ∧
    ((ServerRaftStoreRouter.send_batch_commands
        [{ region_id := 1, reads_only := false }, { region_id := 2, reads_only := true }]
        (some ScheduleError.stopped)).1 =
      Except.error (RaftStoreError.other "channel has been closed")) :=
  ⟨(send_batch_commands_spec
      [{ region_id := 1, reads_only := false }, { region_id := 2, reads_only := true }]
      (some ScheduleError.stopped)).1,
   (send_batch_commands_spec
      [{ region_id := 1, reads_only := false }, { region_id := 2, reads_only := true }]
      (some ScheduleError.stopped)).2.2.1 ScheduleError.stopped rfl⟩

end Tikv
